import Mathlib

/-
Formal model of the Liger hybrid-attention modules
(`LigerGatedSlotAttention` in `liger/models/liger_gsa/modeling_liger_gsa.py` and
`LigerQwen2GatedLinearAttention` in
`liger/models/liger_qwen2_gla/modeling_liger_qwen2_gla.py`).

Tensors are modelled as real-valued functions over `Fin`-indexed axes
(batch, head, sequence position, feature).  Machine floating point is
replaced by exact real arithmetic; the explicit `.to(torch.float32)` casts
in the source are therefore value-preserving and are noted in comments.
The external kernels (`fla` recurrent kernels, `_flash_attention_forward`)
are opaque collaborators of the source modules and appear as function
parameters, except where a claim is about their contract, in which case
they are modelled from the spec (see the `Modelled from the spec:`
doc comments).
-/

/-- A (batch, heads, sequence, feature) tensor, the layout every projected
tensor has after `rearrange(q, 'b n (h d) -> b h n d')` in the source. -/
def Tens (b h n d : ℕ) : Type := Fin b → Fin h → Fin n → Fin d → ℝ

/-- `F.logsigmoid(x) = log(1 / (1 + exp(-x)))`, the squashing function applied
to the pooled gate logits in both variants. -/
noncomputable def logsigmoid (x : ℝ) : ℝ := Real.log (1 / (1 + Real.exp (-x)))

/-- The fixed constant `gate_logit_normalizer = 16` from both forward bodies. -/
def gate_logit_normalizer : ℝ := 16

/-- One element of the gate tensor: `g = F.logsigmoid(g) / gate_logit_normalizer`
(line 104 of `modeling_liger_gsa.py`, line 149 of `modeling_liger_qwen2_gla.py`). -/
noncomputable def gateValue (x : ℝ) : ℝ := logsigmoid x / gate_logit_normalizer

/-- The gate tensor obtained by applying `gateValue` elementwise to the pooled,
head-split, group-replicated key projection `graw`. -/
noncomputable def gateTensor {b h n m : ℕ} (graw : Tens b h n m) : Tens b h n m :=
  fun bb hh i mm => gateValue (graw bb hh i mm)

/-- The auxiliary slot-decay tensor `s = 1 - torch.exp(g)` of the GSA variant
(line 105 of `modeling_liger_gsa.py`). -/
noncomputable def gsaS {b h n m : ℕ} (graw : Tens b h n m) : Tens b h n m :=
  fun bb hh i mm => 1 - Real.exp (gateTensor graw bb hh i mm)

/-- The two recurrent computation modes of step 5 of the forward pass. -/
inductive RecMode : Type
  | chunked
  | fusedStep
deriving DecidableEq, Repr

/-- The mode dispatch `if self.training or q.shape[-2] > 1: chunk_... else:
fused_recurrent_...` shared verbatim by both variants (line 116 of
`modeling_liger_gsa.py`, line 156 of `modeling_liger_qwen2_gla.py`);
`newTokens` is `q.shape[-2]`, the sequence length of the current span. -/
def selectRecMode (training : Bool) (newTokens : ℕ) : RecMode :=
  if training || decide (1 < newTokens) then RecMode.chunked else RecMode.fusedStep

/-- The value (0 or 1) of the attention mask at sliced position `i`, i.e. the
element `attention_mask[:, -n:][bb, i]` of a mask of logical length `N`:
the source slices the mask to the last `n` sequence positions in
`s.mul_(attention_mask[:, None, -s.shape[2]:, None])`.  Mask entries are
modelled as `Bool` (`true` = valid, `false` = padded) and converted to the
0/1 reals the source multiplies by. -/
def maskSliceVal {b : ℕ} (N n : ℕ) (mask : Fin b → ℕ → Bool) (bb : Fin b) (i : Fin n) : ℝ :=
  if mask bb (N - n + (i : ℕ)) then 1 else 0

/-- `F.softmax(x, dim=-1)` on one feature vector (line 145-146 of
`modeling_liger_qwen2_gla.py`). -/
noncomputable def softmaxV {d : ℕ} (x : Fin d → ℝ) : Fin d → ℝ :=
  fun i => Real.exp (x i) / ∑ j, Real.exp (x j)

/-- `F.softmax(·, dim=-1)` applied along the feature axis of a tensor. -/
noncomputable def softmaxT {b h n d : ℕ} (x : Tens b h n d) : Tens b h n d :=
  fun bb hh i => softmaxV (x bb hh i)

/-- `True` iff the mask tensor of logical size `b × N` contains a zero entry:
the test `0.0 in attention_mask` of line 201 of `modeling_liger_qwen2_gla.py`. -/
def hasZeroEntry (b N : ℕ) (mask : Fin b → ℕ → Bool) : Bool :=
  (List.range N).any fun i => (List.finRange b).any fun bb => !(mask bb i)

/-- The output projection `self.o_proj` (an `nn.Linear` without bias, both
variants): the head-merge reshape `'b h n d -> b n (h d)'` is modelled by
currying the head/feature axes into the product index `Fin h × Fin d`. -/
noncomputable def oProjApply {b h n d hs : ℕ} (oW : Fin hs → Fin h × Fin d → ℝ)
    (x : Fin b → Fin n → Fin h × Fin d → ℝ) : Fin b → Fin n → Fin hs → ℝ :=
  fun bb i j => ∑ p : Fin h × Fin d, oW j p * x bb i p

/-- The inputs of the tail of `LigerGatedSlotAttention.forward` (everything
from line 101 of `modeling_liger_gsa.py` on), after the Q/K/V projections,
head-split rearranges, `repeat_kv` group replication and gate pooling.
`Kc`/`Kf` are the external kernels `chunk_gsa` / `fused_recurrent_gsa`
(argument order `q k v s g`, then the optional initial recurrent state, with
`scale = 1`), `FA` is `_flash_attention_forward` (rotary-embedded q and k,
value tensor, optional padding mask), `rope` is
`apply_rotary_pos_emb` with the call's cos/sin pair, `castB` is the value
rounding of `.bfloat16()`, and `oW` is the `o_proj` weight. -/
structure GSAArgs (b h n d m hs N : ℕ) (σ : Type) : Type where
  Kc : Tens b h n d → Tens b h n d → Tens b h n d → Tens b h n m → Tens b h n m →
       Option σ → Tens b h n d × σ
  Kf : Tens b h n d → Tens b h n d → Tens b h n d → Tens b h n m → Tens b h n m →
       Option σ → Tens b h n d × σ
  FA : Tens b h n d → Tens b h n d → Tens b h n d → Option (Fin b → ℕ → Bool) →
       Tens b h n d
  rope : Tens b h n d → Tens b h n d
  castB : ℝ → ℝ
  oW : Fin hs → Fin h × Fin d → ℝ
  training : Bool
  q : Tens b h n d
  k : Tens b h n d
  v : Tens b h n d
  graw : Tens b h n m
  attnMask : Option (Fin b → ℕ → Bool)
  initState : Option σ

/-- The tail of `LigerGatedSlotAttention.forward`, lines 101-189 of
`modeling_liger_gsa.py`, transcribed step by step: gate squashing, slot
decay, in-place left-padding masking of `s` and `v` (the flash path's `sv`
aliases the mutated `v`, so it sees the masked values), recurrent-mode
dispatch, the windowed flash-attention call on the rotary-embedded
un-gated q/k, the fixed `0.5 * y + 0.5 * o_` blend, the `.bfloat16()` cast
and the output projection.  The `.to(torch.float32)` casts of line 114 are
value-preserving here. -/
noncomputable def gsaForwardTail {b h n d m hs N : ℕ} {σ : Type}
    (A : GSAArgs b h n d m hs N σ) : Fin b → Fin n → Fin hs → ℝ :=
  let g : Tens b h n m := fun bb hh i mm => gateValue (A.graw bb hh i mm)
  let s : Tens b h n m := fun bb hh i mm => 1 - Real.exp (g bb hh i mm)
  let s2 : Tens b h n m :=
    match A.attnMask with
    | none => s
    | some mask => fun bb hh i mm => s bb hh i mm * maskSliceVal N n mask bb i
  let v2 : Tens b h n d :=
    match A.attnMask with
    | none => A.v
    | some mask => fun bb hh i dd => A.v bb hh i dd * maskSliceVal N n mask bb i
  let orec : Tens b h n d :=
    (match selectRecMode A.training n with
     | RecMode.chunked => A.Kc A.q A.k v2 s2 g A.initState
     | RecMode.fusedStep => A.Kf A.q A.k v2 s2 g A.initState).1
  let sq : Tens b h n d := A.rope A.q
  let sk : Tens b h n d := A.rope A.k
  let y : Tens b h n d := A.FA sq sk v2 A.attnMask
  oProjApply A.oW (fun bb i p =>
    A.castB ((1 / 2 : ℝ) * y bb p.1 i p.2 + (1 / 2 : ℝ) * orec bb p.1 i p.2))

/-- The value tensor after the in-place left-padding masking
`v.mul_(attention_mask[:, None, -v.shape[2]:, None])` (line 109), or `v`
itself when no mask is given. -/
noncomputable def gsaMaskedV {b h n d m hs N : ℕ} {σ : Type}
    (A : GSAArgs b h n d m hs N σ) : Tens b h n d :=
  match A.attnMask with
  | none => A.v
  | some mask => fun bb hh i dd => A.v bb hh i dd * maskSliceVal N n mask bb i

/-- The slot-decay tensor after the in-place left-padding masking
`s.mul_(attention_mask[:, None, -s.shape[2]:, None])` (line 108). -/
noncomputable def gsaMaskedS {b h n d m hs N : ℕ} {σ : Type}
    (A : GSAArgs b h n d m hs N σ) : Tens b h n m :=
  match A.attnMask with
  | none => gsaS A.graw
  | some mask => fun bb hh i mm => gsaS A.graw bb hh i mm * maskSliceVal N n mask bb i

/-- The recurrent-path output of the GSA forward: the first component of the
selected kernel applied to `q, k, masked v, masked s, g` and the prior
recurrent state (lines 116-119 of `modeling_liger_gsa.py`). -/
noncomputable def gsaRecOut {b h n d m hs N : ℕ} {σ : Type}
    (A : GSAArgs b h n d m hs N σ) : Tens b h n d :=
  (match selectRecMode A.training n with
   | RecMode.chunked => A.Kc A.q A.k (gsaMaskedV A) (gsaMaskedS A) (gateTensor A.graw) A.initState
   | RecMode.fusedStep =>
       A.Kf A.q A.k (gsaMaskedV A) (gsaMaskedS A) (gateTensor A.graw) A.initState).1

/-- The windowed causal flash-attention output of the GSA forward: the
external kernel applied to the rotary-embedded un-gated q and k, the
(masked, by aliasing) value tensor and the attention mask (lines 170-183 of
`modeling_liger_gsa.py`). -/
noncomputable def gsaFlashOut {b h n d m hs N : ℕ} {σ : Type}
    (A : GSAArgs b h n d m hs N σ) : Tens b h n d :=
  A.FA (A.rope A.q) (A.rope A.k) (gsaMaskedV A) A.attnMask

/-- The inputs of the tail of `LigerQwen2GatedLinearAttention.forward`
(everything from line 137 of `modeling_liger_qwen2_gla.py` on), after the
projections, head splits and `repeat_kv`.  `Kc`/`Kf` are the external
kernels `fused_chunk_gla` / `fused_recurrent_gla` (argument order
`q k v g`, then the optional initial state, `scale = 1`); the remaining
fields are as in `GSAArgs`. -/
structure Qwen2Args (b h n d hs N : ℕ) (σ : Type) : Type where
  Kc : Tens b h n d → Tens b h n d → Tens b h n d → Tens b h n d →
       Option σ → Tens b h n d × σ
  Kf : Tens b h n d → Tens b h n d → Tens b h n d → Tens b h n d →
       Option σ → Tens b h n d × σ
  FA : Tens b h n d → Tens b h n d → Tens b h n d → Option (Fin b → ℕ → Bool) →
       Tens b h n d
  rope : Tens b h n d → Tens b h n d
  castB : ℝ → ℝ
  oW : Fin hs → Fin h × Fin d → ℝ
  training : Bool
  q : Tens b h n d
  k : Tens b h n d
  v : Tens b h n d
  graw : Tens b h n d
  attnMask : Option (Fin b → ℕ → Bool)
  initState : Option σ

/-- The mask actually handed to the flash-attention kernel by the Qwen2 GLA
variant: lines 201-204 of `modeling_liger_qwen2_gla.py` replace the mask by
`None` unless it contains a zero entry. -/
def qwen2MaskArg {b : ℕ} (N : ℕ) (attnMask : Option (Fin b → ℕ → Bool)) :
    Option (Fin b → ℕ → Bool) :=
  match attnMask with
  | none => none
  | some mask => if hasZeroEntry b N mask then some mask else none

/-- The tail of `LigerQwen2GatedLinearAttention.forward`, lines 137-223 of
`modeling_liger_qwen2_gla.py`, transcribed step by step: the `sq, sk, sv`
aliases are taken before the feature-axis softmax normalization of q and k
(a rebinding, not an in-place mutation, so the aliases keep the
un-normalized values), gate squashing, recurrent-mode dispatch on the
softmax-normalized q/k, the mask-nulling test, the windowed flash-attention
call on the rotary-embedded un-normalized q/k, the fixed `0.5 * y + 0.5 * o_`
blend, the `.bfloat16()` cast and the output projection. -/
noncomputable def qwen2ForwardTail {b h n d hs N : ℕ} {σ : Type}
    (A : Qwen2Args b h n d hs N σ) : Fin b → Fin n → Fin hs → ℝ :=
  let sq : Tens b h n d := A.q
  let sk : Tens b h n d := A.k
  let sv : Tens b h n d := A.v
  let qn : Tens b h n d := softmaxT A.q
  let kn : Tens b h n d := softmaxT A.k
  let g : Tens b h n d := fun bb hh i dd => gateValue (A.graw bb hh i dd)
  let orec : Tens b h n d :=
    (match selectRecMode A.training n with
     | RecMode.chunked => A.Kc qn kn sv g A.initState
     | RecMode.fusedStep => A.Kf qn kn sv g A.initState).1
  let rq : Tens b h n d := A.rope sq
  let rk : Tens b h n d := A.rope sk
  let am2 : Option (Fin b → ℕ → Bool) :=
    match A.attnMask with
    | none => none
    | some mask => if hasZeroEntry b N mask then some mask else none
  let y : Tens b h n d := A.FA rq rk sv am2
  oProjApply A.oW (fun bb i p =>
    A.castB ((1 / 2 : ℝ) * y bb p.1 i p.2 + (1 / 2 : ℝ) * orec bb p.1 i p.2))

/-- The recurrent-path output of the Qwen2 GLA forward: the selected kernel
applied to the softmax-normalized q and k, the raw v and the squashed gate
(lines 156-159 of `modeling_liger_qwen2_gla.py`). -/
noncomputable def qwen2RecOut {b h n d hs N : ℕ} {σ : Type}
    (A : Qwen2Args b h n d hs N σ) : Tens b h n d :=
  (match selectRecMode A.training n with
   | RecMode.chunked => A.Kc (softmaxT A.q) (softmaxT A.k) A.v (gateTensor A.graw) A.initState
   | RecMode.fusedStep =>
       A.Kf (softmaxT A.q) (softmaxT A.k) A.v (gateTensor A.graw) A.initState).1

/-- The windowed flash-attention output of the Qwen2 GLA forward: the external
kernel applied to the rotary-embedded *un-normalized* q and k (the pre-softmax
aliases `sq`/`sk`), the raw v and the possibly-nulled mask (lines 206-218 of
`modeling_liger_qwen2_gla.py`). -/
noncomputable def qwen2FlashOut {b h n d hs N : ℕ} {σ : Type}
    (A : Qwen2Args b h n d hs N σ) : Tens b h n d :=
  A.FA (A.rope A.q) (A.rope A.k) A.v (qwen2MaskArg N A.attnMask)

/-- Modelled from the spec: the recurrent kernel library (`fla.ops.gla`,
`fla.ops.gsa`) is an external collaborator and its sources are not part of
this repository.  A gated-linear-attention token carries the per-token
query, key and value feature vectors and the per-key-feature log-decay gate
that the kernels receive. -/
structure GLAToken (dk dv : ℕ) : Type where
  q : Fin dk → ℝ
  k : Fin dk → ℝ
  v : Fin dv → ℝ
  g : Fin dk → ℝ

/-- Modelled from the spec: the per-head recurrent state of the
gated-linear-attention variant, a `head_dim × head_dim` matrix
("full head-dim state"). -/
def GLAState (dk dv : ℕ) : Type := Fin dk → Fin dv → ℝ

/-- Modelled from the spec: one step of the fused single-step recurrent
formulation `fused_recurrent_gla` ("O(1) per-token incremental state
update"): the state decays elementwise by `exp(g)` per key feature, the
outer product `k ⊗ v` is added, and the output is the query contraction of
the updated state (`scale = 1`, as passed by the source). -/
noncomputable def fused_recurrent_gla_step {dk dv : ℕ}
    (t : GLAToken dk dv) (S : GLAState dk dv) : (Fin dv → ℝ) × GLAState dk dv :=
  let Snew : GLAState dk dv := fun i j => Real.exp (t.g i) * S i j + t.k i * t.v j
  (fun j => ∑ i, t.q i * Snew i j, Snew)

/-- Modelled from the spec: the chunked recurrent formulation
`fused_chunk_gla`, which "processes a span of multiple new tokens'
contribution to the recurrent state in one parallel computation".  It is
written in the parallel closed form: the final state is the initial state
scaled by the total decay plus every token's `k ⊗ v` contribution scaled by
the decay accumulated after it, and the output at position `t` is the query
contraction of the state expression at prefix length `t+1`. -/
noncomputable def fused_chunk_gla {dk dv : ℕ} (n : ℕ)
    (tok : Fin n → GLAToken dk dv) (S0 : GLAState dk dv) :
    (Fin n → Fin dv → ℝ) × GLAState dk dv :=
  let decayProd : ℕ → ℕ → Fin dk → ℝ := fun lo hi i =>
    ∏ u : Fin n, if lo ≤ (u : ℕ) ∧ (u : ℕ) < hi then Real.exp ((tok u).g i) else 1
  let stateAt : ℕ → GLAState dk dv := fun p => fun i j =>
    decayProd 0 p i * S0 i j +
      ∑ u : Fin n,
        if (u : ℕ) < p then decayProd ((u : ℕ) + 1) p i * (tok u).k i * (tok u).v j else 0
  (fun t j => ∑ i, (tok t).q i * stateAt ((t : ℕ) + 1) i j, stateAt n)

/-- Modelled from the spec: a gated-slot-attention token, the "gated-slot-
attention analogs taking an extra decay tensor `s`" — per-token query, key
and value vectors, plus the per-slot linear decay `s` and log-decay gate `g`. -/
structure GSAToken (dk m dv : ℕ) : Type where
  q : Fin dk → ℝ
  k : Fin dk → ℝ
  v : Fin dv → ℝ
  s : Fin m → ℝ
  g : Fin m → ℝ

/-- Modelled from the spec: the recurrent state of the gated-slot-attention
variant, "head_dim × slot-pool-size" key and value slot summaries. -/
structure GSAStateM (dk m dv : ℕ) : Type where
  Sk : Fin dk → Fin m → ℝ
  Sv : Fin m → Fin dv → ℝ

/-- Modelled from the spec: one step of the fused single-step recurrent
gated-slot-attention formulation `fused_recurrent_gsa`: both slot
summaries decay per slot by `exp(g)`, are written with the `s`-weighted
key/value, and the output reads the value slots with a softmax attention of
the query over the key slots. -/
noncomputable def fused_recurrent_gsa_step {dk m dv : ℕ}
    (t : GSAToken dk m dv) (S : GSAStateM dk m dv) : (Fin dv → ℝ) × GSAStateM dk m dv :=
  let Sk2 : Fin dk → Fin m → ℝ := fun i mm => Real.exp (t.g mm) * S.Sk i mm + t.k i * t.s mm
  let Sv2 : Fin m → Fin dv → ℝ := fun mm j => Real.exp (t.g mm) * S.Sv mm j + t.s mm * t.v j
  let attn : Fin m → ℝ := softmaxV (fun mm => ∑ i, t.q i * Sk2 i mm)
  (fun j => ∑ mm, attn mm * Sv2 mm j, ⟨Sk2, Sv2⟩)

/-- Modelled from the spec: the chunked gated-slot-attention formulation
`chunk_gsa` in the parallel closed form, the slot analogue of
`fused_chunk_gla`. -/
noncomputable def chunk_gsa {dk m dv : ℕ} (n : ℕ)
    (tok : Fin n → GSAToken dk m dv) (S0 : GSAStateM dk m dv) :
    (Fin n → Fin dv → ℝ) × GSAStateM dk m dv :=
  let decayProd : ℕ → ℕ → Fin m → ℝ := fun lo hi mm =>
    ∏ u : Fin n, if lo ≤ (u : ℕ) ∧ (u : ℕ) < hi then Real.exp ((tok u).g mm) else 1
  let SkAt : ℕ → Fin dk → Fin m → ℝ := fun p i mm =>
    decayProd 0 p mm * S0.Sk i mm +
      ∑ u : Fin n,
        if (u : ℕ) < p then decayProd ((u : ℕ) + 1) p mm * (tok u).k i * (tok u).s mm else 0
  let SvAt : ℕ → Fin m → Fin dv → ℝ := fun p mm j =>
    decayProd 0 p mm * S0.Sv mm j +
      ∑ u : Fin n,
        if (u : ℕ) < p then decayProd ((u : ℕ) + 1) p mm * (tok u).s mm * (tok u).v j else 0
  (fun t j =>
     ∑ mm, softmaxV (fun mm2 => ∑ i, (tok t).q i * SkAt ((t : ℕ) + 1) i mm2) mm *
       SvAt ((t : ℕ) + 1) mm j,
   ⟨SkAt n, SvAt n⟩)

/-- The configuration fields the two attention constructors read.
`head_dim_attr` models `getattr(config, "head_dim", ...)` in the GSA
constructor: `some` when the config object carries a `head_dim` attribute. -/
structure LigerConfig : Type where
  hidden_size : ℕ
  num_attention_heads : ℕ
  num_key_value_heads : ℕ
  head_dim_attr : Option ℕ
deriving DecidableEq, Repr

/-- The derived fields a constructor computes. -/
structure InitFields : Type where
  head_dim : ℕ
  num_key_value_groups : ℕ
deriving DecidableEq, Repr

/-- `LigerGatedSlotAttention.__init__` (lines 45-69 of
`modeling_liger_gsa.py`): it computes
`head_dim = getattr(config, "head_dim", hidden_size // num_heads)` and
`num_key_value_groups = num_heads // num_key_value_heads` (Python floor
division) and builds the projection and pooling submodules; it contains no
validation and raises nothing. -/
def ligerGSAInit (cfg : LigerConfig) : Except String InitFields :=
  let head_dim := cfg.head_dim_attr.getD (cfg.hidden_size / cfg.num_attention_heads)
  Except.ok ⟨head_dim, cfg.num_attention_heads / cfg.num_key_value_heads⟩

/-- `LigerQwen2GatedLinearAttention.__init__` (lines 52-89 of
`modeling_liger_qwen2_gla.py`): it computes
`head_dim = hidden_size // num_heads` and raises `ValueError` iff
`head_dim * num_heads != hidden_size` (lines 78-82); no other validation
exists — in particular `num_heads % num_key_value_heads == 0` is never
checked. -/
def ligerQwen2GLAInit (cfg : LigerConfig) : Except String InitFields :=
  let head_dim := cfg.hidden_size / cfg.num_attention_heads
  if head_dim * cfg.num_attention_heads ≠ cfg.hidden_size then
    Except.error "hidden_size must be divisible by num_heads"
  else
    Except.ok ⟨head_dim, cfg.num_attention_heads / cfg.num_key_value_heads⟩

/-- The shape of the projected query before the head split: `q_proj` maps the
`(bsz, seqLen, hidden)` hidden states to `(bsz, seqLen, heads * headDim)`. -/
def projQShape (bsz seqLen heads headDim : ℕ) : List ℕ :=
  [bsz, seqLen, heads * headDim]

/-- The head-split reshape of the query: `rearrange(q, 'b n (h d) -> b h n d')`
in the GSA variant and `view(bsz, q_len, -1, head_dim).transpose(1, 2)` in the
Qwen2 GLA variant both turn `[bsz, seqLen, heads * headDim]` into
`[bsz, heads, seqLen, headDim]`. -/
def headSplitShape (shape : List ℕ) (headDim : ℕ) : List ℕ :=
  match shape with
  | [bsz, seqLen, hd] => [bsz, hd / headDim, seqLen, headDim]
  | _ => []

/-- The `offset` argument the GSA forward passes to `past_key_value.update`
(line 125 of `modeling_liger_gsa.py`): `q.shape[1]` of the head-split query. -/
def gsaCacheUpdateOffsetArg (bsz seqLen heads headDim : ℕ) : ℕ :=
  (headSplitShape (projQShape bsz seqLen heads headDim) headDim).getD 1 0

/-- The `offset` argument the Qwen2 GLA forward passes to
`past_key_value.update` (line 165 of `modeling_liger_qwen2_gla.py`):
`q.shape[1]` of the head-split query. -/
def qwen2CacheUpdateOffsetArg (bsz seqLen heads headDim : ℕ) : ℕ :=
  (headSplitShape (projQShape bsz seqLen heads headDim) headDim).getD 1 0

/-- Torch dtypes relevant to the forward tails. -/
inductive TorchDType : Type
  | float64
  | float32
  | bfloat16
  | float16
deriving DecidableEq, Repr

/-- Width rank used by torch type promotion. -/
def dtypeRank : TorchDType → ℕ
  | TorchDType.float64 => 3
  | TorchDType.float32 => 2
  | TorchDType.bfloat16 => 1
  | TorchDType.float16 => 1

/-- Torch binary type promotion restricted to the float dtypes above: the
wider dtype wins, and the two incomparable 16-bit dtypes promote to
float32. -/
def promoteDType (a c : TorchDType) : TorchDType :=
  if a = c then a
  else if dtypeRank c < dtypeRank a then a
  else if dtypeRank a < dtypeRank c then c
  else TorchDType.float32

/-- Dtype of the flash-attention path inputs after the stabilization block
(lines 149-167 of `modeling_liger_gsa.py`, lines 180-198 of
`modeling_liger_qwen2_gla.py`): a float32 `sq` is cast back to the
projection-weight dtype, any other dtype passes through. -/
def flashPathDType (hiddenDType weightDType : TorchDType) : TorchDType :=
  if hiddenDType = TorchDType.float32 then weightDType else hiddenDType

/-- Dtype of the recurrent-path output: the forward casts `q, k, v, (s,) g` to
`torch.float32` before the recurrent kernel (line 114 of
`modeling_liger_gsa.py`, line 154 of `modeling_liger_qwen2_gla.py`). -/
def recPathDType : TorchDType := TorchDType.float32

/-- Dtype of the blend `0.5 * y + 0.5 * o_` by torch promotion. -/
def blendedDType (hiddenDType weightDType : TorchDType) : TorchDType :=
  promoteDType (flashPathDType hiddenDType weightDType) recPathDType

/-- The `.bfloat16()` cast applied to the blended output. -/
def bfloat16Cast (_ : TorchDType) : TorchDType := TorchDType.bfloat16

/-- Dtype of the tensor handed to `self.o_proj` in the GSA variant
(line 186-187 of `modeling_liger_gsa.py`): the blended output after the
`.bfloat16()` cast (`rearrange` does not change the dtype). -/
def gsaOProjInputDType (hiddenDType weightDType : TorchDType) : TorchDType :=
  bfloat16Cast (blendedDType hiddenDType weightDType)

/-- Dtype of the tensor handed to `self.o_proj` in the Qwen2 GLA variant
(lines 220-221 of `modeling_liger_qwen2_gla.py`). -/
def qwen2OProjInputDType (hiddenDType weightDType : TorchDType) : TorchDType :=
  bfloat16Cast (blendedDType hiddenDType weightDType)

/-- A left-padding mask over two positions whose first position is padded. -/
def exampleMask : Fin 1 → ℕ → Bool := fun _ i => i != 0

/-- A value tensor that is nonzero exactly at the padded position. -/
def exampleV1 : Tens 1 1 2 1 := fun _ _ i _ => if (i : ℕ) = 0 then 1 else 0

/-- The all-zero value tensor of the same shape as `exampleV1`. -/
def exampleV2 : Tens 1 1 2 1 := fun _ _ _ _ => 0

/-- A concrete GSA forward-tail argument bundle (batch 1, one head, two
positions, one feature, one slot, mask length 2) whose value tensor is
`exampleV1` and whose mask pads the first position. -/
def gsaArgsExample : GSAArgs 1 1 2 1 1 1 2 Unit :=
  ⟨fun _ _ _ _ _ _ => (exampleV2, ()),
   fun _ _ _ _ _ _ => (exampleV2, ()),
   fun _ _ _ _ => exampleV2,
   id, id, fun _ _ => 0, false,
   exampleV2, exampleV2, exampleV1, exampleV2,
   some exampleMask, none⟩

/-- A concrete Qwen2 GLA forward-tail argument bundle with singleton axes. -/
def qwen2ArgsExample : Qwen2Args 1 1 1 1 1 0 Unit :=
  ⟨fun _ _ _ _ _ => ((fun _ _ _ _ => 0), ()),
   fun _ _ _ _ _ => ((fun _ _ _ _ => 0), ()),
   fun _ _ _ _ => (fun _ _ _ _ => 0),
   id, id, fun _ _ => 0, false,
   (fun _ _ _ _ => 0), (fun _ _ _ _ => 0), (fun _ _ _ _ => 0), (fun _ _ _ _ => 0),
   none, none⟩

/-- `F.logsigmoid` is nonpositive everywhere: its argument to `log` lies in
`(0, 1]`. -/
theorem logsigmoid_nonpos (x : ℝ) : logsigmoid x ≤ 0 := by
  unfold logsigmoid
  have hpos : (0 : ℝ) < 1 + Real.exp (-x) := by positivity
  have h1 : 1 / (1 + Real.exp (-x)) ≤ 1 := by
    rw [div_le_one hpos]
    linarith [Real.exp_pos (-x)]
  have h0 : (0 : ℝ) ≤ 1 / (1 + Real.exp (-x)) := by positivity
  exact Real.log_nonpos h0 h1

/-- Dividing the nonpositive log-sigmoid by the positive normalizer keeps the
gate nonpositive. -/
theorem gateValue_nonpos (x : ℝ) : gateValue x ≤ 0 := by
  unfold gateValue gate_logit_normalizer
  have h := logsigmoid_nonpos x
  have h16 : (0 : ℝ) < 16 := by norm_num
  exact div_nonpos_of_nonpos_of_nonneg h h16.le

/-- Each softmax coordinate is a quotient of nonnegative reals. -/
theorem softmaxV_nonneg {d : ℕ} (x : Fin d → ℝ) (i : Fin d) : 0 ≤ softmaxV x i := by
  unfold softmaxV
  have hnum : (0 : ℝ) ≤ Real.exp (x i) := (Real.exp_pos _).le
  have hden : (0 : ℝ) ≤ ∑ j, Real.exp (x j) :=
    Finset.sum_nonneg fun j _ => (Real.exp_pos _).le
  exact div_nonneg hnum hden

/-- On a nonempty feature axis the softmax coordinates sum to 1. -/
theorem softmaxV_sum_one {d : ℕ} (hd : 0 < d) (x : Fin d → ℝ) :
    ∑ i, softmaxV x i = 1 := by
  unfold softmaxV
  have : Nonempty (Fin d) := ⟨⟨0, hd⟩⟩
  have hden : (0 : ℝ) < ∑ j, Real.exp (x j) :=
    Finset.sum_pos (fun j _ => Real.exp_pos _) Finset.univ_nonempty
  rw [← Finset.sum_div]
  exact div_self hden.ne'

/-- The GSA forward tail decomposes as the output projection of the
`.bfloat16()`-cast 0.5/0.5 blend of the two path outputs. -/
theorem gsaForwardTail_decomp {b h n d m hs N : ℕ} {σ : Type}
    (A : GSAArgs b h n d m hs N σ) :
    gsaForwardTail A = oProjApply A.oW (fun bb i p =>
      A.castB ((1 / 2 : ℝ) * gsaFlashOut A bb p.1 i p.2 +
               (1 / 2 : ℝ) * gsaRecOut A bb p.1 i p.2)) := rfl

/-- The Qwen2 GLA forward tail decomposes the same way. -/
theorem qwen2ForwardTail_decomp {b h n d hs N : ℕ} {σ : Type}
    (A : Qwen2Args b h n d hs N σ) :
    qwen2ForwardTail A = oProjApply A.oW (fun bb i p =>
      A.castB ((1 / 2 : ℝ) * qwen2FlashOut A bb p.1 i p.2 +
               (1 / 2 : ℝ) * qwen2RecOut A bb p.1 i p.2)) := rfl

/-- C1: For every forward call of the dual-path attention engine
(`LigerGatedSlotAttention` and `LigerQwen2GatedLinearAttention`), the blended
pre-projection output equals elementwise `0.5 *` (windowed causal
flash-attention output) `+ 0.5 *` (recurrent-path output); the 0.5/0.5
weights are the fixed literals of the source, independent of every input,
weight and kernel, hence not learned. -/
theorem dual_path_blend_half_half :
    (∀ (b h n d m hs N : ℕ) (σ : Type) (A : GSAArgs b h n d m hs N σ),
        gsaForwardTail A = oProjApply A.oW (fun bb i p =>
          A.castB ((1 / 2 : ℝ) * gsaFlashOut A bb p.1 i p.2 +
                   (1 / 2 : ℝ) * gsaRecOut A bb p.1 i p.2))) ∧
    (∀ (b h n d hs N : ℕ) (σ : Type) (A : Qwen2Args b h n d hs N σ),
        qwen2ForwardTail A = oProjApply A.oW (fun bb i p =>
          A.castB ((1 / 2 : ℝ) * qwen2FlashOut A bb p.1 i p.2 +
                   (1 / 2 : ℝ) * qwen2RecOut A bb p.1 i p.2))) :=
  ⟨fun _ _ _ _ _ _ _ _ A => gsaForwardTail_decomp A,
   fun _ _ _ _ _ _ _ A => qwen2ForwardTail_decomp A⟩

/-- C5: every element of the gate tensor produced by the gating computation
(`log_sigmoid` of the pooled key projection divided by the normalizer 16)
lies in `(-∞, 0]`. -/
theorem gate_values_nonpositive :
    (∀ x : ℝ, gateValue x ≤ 0) ∧
    (∀ (b h n m : ℕ) (graw : Tens b h n m) (bb : Fin b) (hh : Fin h) (i : Fin n) (mm : Fin m),
        gateTensor graw bb hh i mm ≤ 0) :=
  ⟨gateValue_nonpos, fun _ _ _ _ graw bb hh i mm => gateValue_nonpos (graw bb hh i mm)⟩

/-- C6: every element of the auxiliary slot-decay tensor `s = 1 - exp(g)` of
the GSA variant lies in `[0, 1)`. -/
theorem slot_decay_in_unit_interval :
    ∀ (b h n m : ℕ) (graw : Tens b h n m) (bb : Fin b) (hh : Fin h) (i : Fin n) (mm : Fin m),
      0 ≤ gsaS graw bb hh i mm ∧ gsaS graw bb hh i mm < 1 := by
  intro b h n m graw bb hh i mm
  unfold gsaS
  have hg : gateTensor graw bb hh i mm ≤ 0 := gateValue_nonpos _
  have hle : Real.exp (gateTensor graw bb hh i mm) ≤ 1 := Real.exp_le_one_iff.mpr hg
  have hpos : 0 < Real.exp (gateTensor graw bb hh i mm) := Real.exp_pos _
  constructor
  · linarith
  · linarith

/-- C10: in both variants the blended attention output is cast to `bfloat16`
before the output projection, whatever the incoming hidden-state dtype and
the float32 recurrent intermediates were, so `o_proj` always receives a
`bfloat16` input. -/
theorem oproj_input_always_bfloat16 :
    ∀ (hiddenDType weightDType : TorchDType),
      gsaOProjInputDType hiddenDType weightDType = TorchDType.bfloat16 ∧
      qwen2OProjInputDType hiddenDType weightDType = TorchDType.bfloat16 :=
  fun _ _ => ⟨rfl, rfl⟩

/-- C3 (evaluation at the failing input): with batch 1, 4 heads, a span of 8
new tokens and head_dim 16, both forwards pass `q.shape[1] = 4` — the head
count of the head-split query — as the cache `offset`, not the number 8 of
newly processed tokens that the claim (and the spec) state. -/
theorem cache_offset_is_head_count_not_tokens :
    gsaCacheUpdateOffsetArg 1 8 4 16 = 4 ∧ qwen2CacheUpdateOffsetArg 1 8 4 16 = 4 ∧
    gsaCacheUpdateOffsetArg 1 8 4 16 ≠ 8 ∧ qwen2CacheUpdateOffsetArg 1 8 4 16 ≠ 8 := by
  decide

/-- C4 (counterexample): the configuration `hidden_size = 64`,
`num_attention_heads = 4`, `num_key_value_heads = 3` violates
`num_heads % num_key_value_heads == 0`, yet both constructors succeed; and a
GSA configuration carrying `head_dim = 10` violates
`num_heads * head_dim == hidden_size`, yet the GSA constructor also
succeeds.  Construction does not fail on violating configurations. -/
theorem ctor_validation_counterexample :
    (LigerConfig.mk 64 4 3 none).num_attention_heads %
        (LigerConfig.mk 64 4 3 none).num_key_value_heads ≠ 0 ∧
    ligerGSAInit (LigerConfig.mk 64 4 3 none) = Except.ok (InitFields.mk 16 1) ∧
    ligerQwen2GLAInit (LigerConfig.mk 64 4 3 none) = Except.ok (InitFields.mk 16 1) ∧
    ligerGSAInit (LigerConfig.mk 64 4 2 (some 10)) = Except.ok (InitFields.mk 10 2) ∧
    (LigerConfig.mk 64 4 2 (some 10)).num_attention_heads * 10 ≠
        (LigerConfig.mk 64 4 2 (some 10)).hidden_size := by
  refine ⟨by decide, rfl, rfl, rfl, by decide⟩

/-- C4 (amended): the GSA constructor performs no validation and always
succeeds; the Qwen2 GLA constructor fails exactly when
`num_attention_heads` does not divide `hidden_size` (its only check, with
`head_dim` recomputed as `hidden_size // num_heads`); neither constructor
checks `num_heads % num_key_value_heads == 0`. -/
theorem ctor_validation_characterization :
    ∀ cfg : LigerConfig,
      (∃ r, ligerGSAInit cfg = Except.ok r) ∧
      ((∃ r, ligerQwen2GLAInit cfg = Except.ok r) ↔
        cfg.num_attention_heads ∣ cfg.hidden_size) := by
  intro cfg
  constructor
  · exact ⟨_, rfl⟩
  · unfold ligerQwen2GLAInit
    by_cases hdvd :
        cfg.hidden_size / cfg.num_attention_heads * cfg.num_attention_heads =
          cfg.hidden_size
    · rw [if_neg (not_not_intro hdvd)]
      constructor
      · intro _
        exact Dvd.intro_left _ hdvd
      · intro _
        exact ⟨_, rfl⟩
    · rw [if_pos hdvd]
      constructor
      · rintro ⟨r, hr⟩
        exact absurd hr (by simp)
      · intro hdv
        exact absurd (Nat.div_mul_cancel hdv) hdvd

/-- C2: for any span of at least one new token, the recurrent mode is chunked
iff the module is training or more than one new token is processed, and the
fused single-step mode is selected iff exactly one new token is processed
outside training; and no third mode exists. -/
theorem recurrent_mode_selection (training : Bool) (newTokens : ℕ) (h1 : 1 ≤ newTokens) :
    (selectRecMode training newTokens = RecMode.chunked ↔
        (training = true ∨ 1 < newTokens)) ∧
    (selectRecMode training newTokens = RecMode.fusedStep ↔
        (training = false ∧ newTokens = 1)) ∧
    (∀ (tr : Bool) (nt : ℕ),
        selectRecMode tr nt = RecMode.chunked ∨ selectRecMode tr nt = RecMode.fusedStep) := by
  have hmode : ∀ (tr : Bool) (nt : ℕ),
      selectRecMode tr nt = RecMode.chunked ∨ selectRecMode tr nt = RecMode.fusedStep := by
    intro tr nt
    unfold selectRecMode
    by_cases hc : (tr || decide (1 < nt)) = true
    · rw [if_pos hc]
      exact Or.inl rfl
    · rw [if_neg hc]
      exact Or.inr rfl
  refine ⟨?_, ?_, hmode⟩
  · cases training
    · by_cases hgt : 1 < newTokens
      · simp [selectRecMode, hgt]
      · simp [selectRecMode, hgt]
    · simp [selectRecMode]
  · cases training
    · by_cases hgt : 1 < newTokens
      · simp [selectRecMode, hgt]
        omega
      · simp [selectRecMode, hgt]
        omega
    · simp [selectRecMode]

/-- Witness for C2 at the single-token decoding step `training = false`,
`newTokens = 1`. -/
theorem recurrent_mode_selection_witness :
    1 ≤ 1 ∧
    ((selectRecMode false 1 = RecMode.chunked ↔ (false = true ∨ 1 < 1)) ∧
     (selectRecMode false 1 = RecMode.fusedStep ↔ (false = false ∧ 1 = 1)) ∧
     (∀ (tr : Bool) (nt : ℕ),
        selectRecMode tr nt = RecMode.chunked ∨ selectRecMode tr nt = RecMode.fusedStep)) :=
  ⟨by decide, recurrent_mode_selection false 1 (by decide)⟩

/-- C7: in the GSA variant, with a left-padding mask whose first `kpad`
sliced positions are padded, replacing the content of the value tensor at
those masked positions (keeping everything else fixed) leaves the final
layer output unchanged: masking zeroes `s` and `v` at masked positions via
the mask restricted to the last `n` positions, so the masked content cannot
reach either path. -/
theorem masked_value_noninterference {b h n d m hs N : ℕ} {σ : Type}
    (A : GSAArgs b h n d m hs N σ) (mask : Fin b → ℕ → Bool) (v2 : Tens b h n d)
    (kpad : ℕ)
    (hA : A.attnMask = some mask)
    (hmask : ∀ (bb : Fin b) (i : Fin n), (i : ℕ) < kpad → mask bb (N - n + (i : ℕ)) = false)
    (hv : ∀ (bb : Fin b) (hh : Fin h) (i : Fin n) (dd : Fin d),
        kpad ≤ (i : ℕ) → A.v bb hh i dd = v2 bb hh i dd) :
    gsaForwardTail A = gsaForwardTail
      (@GSAArgs.mk b h n d m hs N σ A.Kc A.Kf A.FA A.rope A.castB A.oW A.training A.q A.k v2
        A.graw A.attnMask A.initState) := by
  have hMV : gsaMaskedV
      (@GSAArgs.mk b h n d m hs N σ A.Kc A.Kf A.FA A.rope A.castB A.oW A.training A.q A.k v2
        A.graw A.attnMask A.initState) = gsaMaskedV A := by
    simp only [gsaMaskedV, hA]
    funext bb hh i dd
    by_cases hik : (i : ℕ) < kpad
    · have hm := hmask bb i hik
      simp [maskSliceVal, hm]
    · rw [hv bb hh i dd (le_of_not_lt hik)]
  rw [gsaForwardTail_decomp, gsaForwardTail_decomp]
  unfold gsaFlashOut gsaRecOut
  rw [hMV]
  rfl

/-- Witness for C7: a concrete two-position example whose first position is
padded; the two value tensors differ exactly there. -/
theorem masked_value_noninterference_witness :
    gsaArgsExample.attnMask = some exampleMask ∧
    (∀ (bb : Fin 1) (i : Fin 2), (i : ℕ) < 1 → exampleMask bb (2 - 2 + (i : ℕ)) = false) ∧
    (∀ (bb : Fin 1) (hh : Fin 1) (i : Fin 2) (dd : Fin 1),
        1 ≤ (i : ℕ) → gsaArgsExample.v bb hh i dd = exampleV2 bb hh i dd) ∧
    gsaForwardTail gsaArgsExample = gsaForwardTail
      (@GSAArgs.mk 1 1 2 1 1 1 2 Unit gsaArgsExample.Kc gsaArgsExample.Kf gsaArgsExample.FA
        gsaArgsExample.rope gsaArgsExample.castB gsaArgsExample.oW gsaArgsExample.training
        gsaArgsExample.q gsaArgsExample.k exampleV2 gsaArgsExample.graw gsaArgsExample.attnMask
        gsaArgsExample.initState) := by
  have hv : ∀ (bb : Fin 1) (hh : Fin 1) (i : Fin 2) (dd : Fin 1),
      1 ≤ (i : ℕ) → gsaArgsExample.v bb hh i dd = exampleV2 bb hh i dd := by
    intro bb hh i dd hi
    have hi1 : (i : ℕ) = 1 := by omega
    simp [gsaArgsExample, exampleV1, exampleV2, hi1]
  exact ⟨rfl, by decide, hv,
    masked_value_noninterference gsaArgsExample exampleMask exampleV2 1 rfl (by decide) hv⟩

/-- C9: in the Qwen2 GLA variant the recurrent path receives the
feature-axis softmax of the query and key projections — so every
per-position query/key vector entering the recurrent kernel is elementwise
nonnegative and sums to 1 — while the flash-attention path receives the
rotary-embedded copies taken *before* this normalization. -/
theorem qwen2_softmax_prenorm_paths {b h n d hs N : ℕ} {σ : Type}
    (A : Qwen2Args b h n d hs N σ) (hd0 : 0 < d) :
    (∀ (bb : Fin b) (hh : Fin h) (i : Fin n) (j : Fin d), 0 ≤ softmaxT A.q bb hh i j) ∧
    (∀ (bb : Fin b) (hh : Fin h) (i : Fin n), ∑ j, softmaxT A.q bb hh i j = 1) ∧
    (∀ (bb : Fin b) (hh : Fin h) (i : Fin n) (j : Fin d), 0 ≤ softmaxT A.k bb hh i j) ∧
    (∀ (bb : Fin b) (hh : Fin h) (i : Fin n), ∑ j, softmaxT A.k bb hh i j = 1) ∧
    qwen2RecOut A =
      (match selectRecMode A.training n with
       | RecMode.chunked =>
           A.Kc (softmaxT A.q) (softmaxT A.k) A.v (gateTensor A.graw) A.initState
       | RecMode.fusedStep =>
           A.Kf (softmaxT A.q) (softmaxT A.k) A.v (gateTensor A.graw) A.initState).1 ∧
    qwen2FlashOut A = A.FA (A.rope A.q) (A.rope A.k) A.v (qwen2MaskArg N A.attnMask) :=
  ⟨fun bb hh i j => softmaxV_nonneg (A.q bb hh i) j,
   fun bb hh i => softmaxV_sum_one hd0 (A.q bb hh i),
   fun bb hh i j => softmaxV_nonneg (A.k bb hh i) j,
   fun bb hh i => softmaxV_sum_one hd0 (A.k bb hh i),
   rfl, rfl⟩

/-- Witness for C9 at the singleton-axis example bundle. -/
theorem qwen2_softmax_prenorm_paths_witness :
    0 < 1 ∧
    ((∀ (bb : Fin 1) (hh : Fin 1) (i : Fin 1) (j : Fin 1),
        0 ≤ softmaxT qwen2ArgsExample.q bb hh i j) ∧
     (∀ (bb : Fin 1) (hh : Fin 1) (i : Fin 1), ∑ j, softmaxT qwen2ArgsExample.q bb hh i j = 1) ∧
     (∀ (bb : Fin 1) (hh : Fin 1) (i : Fin 1) (j : Fin 1),
        0 ≤ softmaxT qwen2ArgsExample.k bb hh i j) ∧
     (∀ (bb : Fin 1) (hh : Fin 1) (i : Fin 1), ∑ j, softmaxT qwen2ArgsExample.k bb hh i j = 1) ∧
     qwen2RecOut qwen2ArgsExample =
       (match selectRecMode qwen2ArgsExample.training 1 with
        | RecMode.chunked =>
            qwen2ArgsExample.Kc (softmaxT qwen2ArgsExample.q) (softmaxT qwen2ArgsExample.k)
              qwen2ArgsExample.v (gateTensor qwen2ArgsExample.graw) qwen2ArgsExample.initState
        | RecMode.fusedStep =>
            qwen2ArgsExample.Kf (softmaxT qwen2ArgsExample.q) (softmaxT qwen2ArgsExample.k)
              qwen2ArgsExample.v (gateTensor qwen2ArgsExample.graw)
              qwen2ArgsExample.initState).1 ∧
     qwen2FlashOut qwen2ArgsExample =
       qwen2ArgsExample.FA (qwen2ArgsExample.rope qwen2ArgsExample.q)
         (qwen2ArgsExample.rope qwen2ArgsExample.k) qwen2ArgsExample.v
         (qwen2MaskArg 0 qwen2ArgsExample.attnMask)) :=
  ⟨by decide, qwen2_softmax_prenorm_paths qwen2ArgsExample (by decide)⟩

/-- C8: on a single-token span with the same initial recurrent state and the
same per-token inputs, the chunked formulation and the fused single-step
formulation produce the same output and the same updated recurrent state —
exactly, in the exact-real model, hence within any floating-point
tolerance — for both the GLA kernels and the GSA kernels. -/
theorem chunked_single_token_matches_fused_step :
    (∀ (dk dv : ℕ) (t0 : GLAToken dk dv) (S0 : GLAState dk dv),
        (fused_chunk_gla 1 (fun _ => t0) S0).1 0 = (fused_recurrent_gla_step t0 S0).1 ∧
        (fused_chunk_gla 1 (fun _ => t0) S0).2 = (fused_recurrent_gla_step t0 S0).2) ∧
    (∀ (dk m dv : ℕ) (t0 : GSAToken dk m dv) (S0 : GSAStateM dk m dv),
        (chunk_gsa 1 (fun _ => t0) S0).1 0 = (fused_recurrent_gsa_step t0 S0).1 ∧
        (chunk_gsa 1 (fun _ => t0) S0).2.Sk = (fused_recurrent_gsa_step t0 S0).2.Sk ∧
        (chunk_gsa 1 (fun _ => t0) S0).2.Sv = (fused_recurrent_gsa_step t0 S0).2.Sv) := by
  constructor
  · intro dk dv t0 S0
    constructor
    · funext j
      simp [fused_chunk_gla, fused_recurrent_gla_step, Fin.sum_univ_one, Fin.prod_univ_one]
    · funext i j
      simp [fused_chunk_gla, fused_recurrent_gla_step, Fin.sum_univ_one, Fin.prod_univ_one]
  · intro dk m dv t0 S0
    refine ⟨?_, ?_, ?_⟩
    · funext j
      simp [chunk_gsa, fused_recurrent_gsa_step, Fin.sum_univ_one, Fin.prod_univ_one]
    · funext i mm
      simp [chunk_gsa, fused_recurrent_gsa_step, Fin.sum_univ_one, Fin.prod_univ_one]
    · funext mm j
      simp [chunk_gsa, fused_recurrent_gsa_step, Fin.sum_univ_one, Fin.prod_univ_one]
